import Mathlib

/-!
Verification of the browser-agent core of `app.py`.

The development shallowly embeds the Python source: each Playwright call a
tool performs is modelled as a field of `PageModel` returning `Except`
(`.error e` models the call raising an exception whose `str` is `e`); the
module-level `page` global is an `Option PageModel` (Python `None` ↦ `none`);
Python f-strings become explicit `String.append`; Python slicing
`content[:4000]` becomes `String.take`.  The agent decision loop itself lives
in a library whose body is not part of the source tree, so the loop
(`loopStep`, `runLoop`) is modelled from the specification, as are the parts
of the task runner that glue the loop to the browser lifecycle
(`executeTask`).
-/

namespace BrowserAgent

/-- Behaviour stub for the Playwright `Page` object: each operation the tools
use either succeeds or raises an exception carrying a message string.
`goto url` models `page.goto(url, ...)`; `fill sel txt` models
`page.locator(sel).fill(txt)`; `press key` models `page.keyboard.press(key)`;
`click sel` models `page.locator(sel).click()`; `waitForLoadState st` models
`page.wait_for_load_state(st)`; `innerText sel` models
`page.locator(sel).inner_text()` returning the visible text. -/
structure PageModel where
  goto : String → Except String Unit
  fill : String → String → Except String Unit
  press : String → Except String Unit
  click : String → Except String Unit
  waitForLoadState : String → Except String Unit
  innerText : String → Except String String

/-- Embeds the tool `google_search` (app.py lines 48-63): guard on the global
`page`, then `goto` google, `fill` the query, `press` Enter, with the whole
body wrapped in try/except returning the error as an observation. -/
def google_search (page : Option PageModel) (query : String) : String :=
  match page with
  | none => "Browser is not running."
  | some p =>
    match p.goto "https://www.google.com" with
    | .error e => "Error during Google search: " ++ e
    | .ok _ =>
      match p.fill "textarea[name=\"q\"]" query with
      | .error e => "Error during Google search: " ++ e
      | .ok _ =>
        match p.press "Enter" with
        | .error e => "Error during Google search: " ++ e
        | .ok _ =>
          "Successfully searched for '" ++ query ++ "'. The results are now on the screen."

/-- Embeds the tool `navigate_to_url` (app.py lines 65-77). -/
def navigate_to_url (page : Option PageModel) (url : String) : String :=
  match page with
  | none => "Browser is not running."
  | some p =>
    match p.goto url with
    | .error e => "Error navigating to url: " ++ e
    | .ok _ => "Successfully navigated to " ++ url ++ "."

/-- Embeds the tool `type_text` (app.py lines 83-95). -/
def type_text (page : Option PageModel) (css_selector : String) (text : String) : String :=
  match page with
  | none => "Browser is not running."
  | some p =>
    match p.fill css_selector text with
    | .error e => "Error typing text: " ++ e
    | .ok _ => "Successfully typed '" ++ text ++ "' into the element."

/-- Embeds the tool `click_element` (app.py lines 97-109). -/
def click_element (page : Option PageModel) (css_selector : String) : String :=
  match page with
  | none => "Browser is not running."
  | some p =>
    match p.click css_selector with
    | .error e => "Error clicking element: " ++ e
    | .ok _ => "Successfully clicked the element."

/-- Embeds the tool `read_current_page_content` (app.py lines 111-124):
wait for network idle, read the body's visible text, return `content[:4000]`;
exceptions become a descriptive observation. -/
def read_current_page_content (page : Option PageModel) : String :=
  match page with
  | none => "Browser is not running."
  | some p =>
    match p.waitForLoadState "networkidle" with
    | .error e => "Could not get page content. Error: " ++ e
    | .ok _ =>
      match p.innerText "body" with
      | .error e => "Could not get page content. Error: " ++ e
      | .ok content => content.take 4000

/-- The fixed tool set of the agent, in the order of the `tools` list
(app.py line 128). -/
def toolNames : List String :=
  ["google_search", "navigate_to_url", "type_text", "click_element",
   "read_current_page_content"]

/-- Modelled from the spec: one parsed oracle decision (§3 AgentDecision) —
either invoke a named tool with an input, or finish with a final answer.
`σ` is the action-input type. -/
inductive AgentDecision (σ : Type) where
  | act (name : String) (input : σ)
  | finish (answer : String)

/-- Modelled from the spec: the result of running ActionParser on one raw
oracle response (§4.2) — a decision, or a `ParseFailure` signal. -/
inductive ParsedOutput (σ : Type) where
  | decision (d : AgentDecision σ)
  | parseFailure (reason : String)

/-- Modelled from the spec: one completed loop iteration recorded in history
(§3 HistoryStep).  Synthesized corrective steps carry no real tool input. -/
structure HistoryStep (σ : Type) where
  action : String
  input : Option σ
  observation : String

/-- Modelled from the spec: the mutable state of one AgentLoop run — the
append-only history and the consecutive-parse-failure counter (§4.2). -/
structure LoopState (σ : Type) where
  history : List (HistoryStep σ)
  parseRetries : Nat

/-- Modelled from the spec: outcome of one loop iteration — continue with an
updated state, or reach a terminal state (§4.1). -/
inductive StepResult (σ : Type) where
  | next (s : LoopState σ)
  | done (answer : String)
  | failed (error : String)

/-- Modelled from the spec: terminal result of an AgentLoop run —
`Done(answer)` or `Failed(error)` (§4.1). -/
inductive LoopResult where
  | done (answer : String)
  | failed (error : String)

/-- Modelled from the spec: the observation synthesized on a parse failure,
instructing the oracle on the required response shape (§4.2). -/
def parseCorrection : String :=
  "Your response could not be parsed. Respond with a single JSON object " ++
  "with an 'action' key and an 'action_input' key."

/-- Modelled from the spec: the observation synthesized for an unknown action
name; it must name the invalid action (§4.1 Acting, §8). -/
def invalidActionObservation (name : String) : String :=
  "Invalid action: '" ++ name ++ "' is not a known tool. Choose one of the listed tool names."

/-- Modelled from the spec: one Acting/Observing transition of the AgentLoop
state machine (§4.1-§4.2): a `ParseFailure` below the retry bound appends a
corrective observation and bumps the counter, above it fails with
unparseable-output; `Finish` reaches `Done`; an `Act` on an unknown name
appends an observation naming it; an `Act` on a known name invokes the tool,
whose observation (tool exceptions already converted to text) is appended,
and the counter of consecutive parse failures resets. -/
def loopStep {σ : Type} (toolset : String → Option (σ → String))
    (maxParseRetries : Nat) (out : ParsedOutput σ) (s : LoopState σ) :
    StepResult σ :=
  match out with
  | .parseFailure _ =>
    if maxParseRetries ≤ s.parseRetries then
      .failed "unparseable-output"
    else
      .next ⟨s.history ++ [⟨"_parse_failure", none, parseCorrection⟩],
             s.parseRetries + 1⟩
  | .decision (.finish a) => .done a
  | .decision (.act name i) =>
    match toolset name with
    | none => .next ⟨s.history ++ [⟨name, some i, invalidActionObservation name⟩], 0⟩
    | some f => .next ⟨s.history ++ [⟨name, some i, f i⟩], 0⟩

/-- Modelled from the spec: the bounded agent loop (§4.1).  `oracle` is the
composition of prompting the reasoning oracle with the loop state and running
ActionParser on its raw text; the fuel argument is the maximum iteration
count, and exhausting it reaches `Failed(iteration-limit-exceeded)`. -/
def runLoop {σ : Type} (oracle : LoopState σ → ParsedOutput σ)
    (toolset : String → Option (σ → String)) (maxParseRetries : Nat) :
    Nat → LoopState σ → LoopResult
  | 0, _ => .failed "iteration-limit-exceeded"
  | n + 1, s =>
    match loopStep toolset maxParseRetries (oracle s) s with
    | .done a => .done a
    | .failed e => .failed e
    | .next s2 => runLoop oracle toolset maxParseRetries n s2

/-- Modelled from the spec: TaskRunner maps `Done(answer)` to a success
result and `Failed(error)` to an error result surfaced to the caller
(§4.5, §7). -/
def loopResultToResponse : LoopResult → Except String String
  | .done a => .ok a
  | .failed e => .error ("Agent failed: " ++ e)

/-- Modelled from the spec: the explicit dispatch table from tool name to
handler over the five tools of app.py line 128 (§2 ToolSet, §9).  An action
input is a pair of string fields; single-field tools read the first field and
`type_text` reads both (selector, text); `read_current_page_content` takes
none. -/
def appToolset (page : Option PageModel) (name : String) :
    Option (String × String → String) :=
  if name = "google_search" then some (fun i => google_search page i.1)
  else if name = "navigate_to_url" then some (fun i => navigate_to_url page i.1)
  else if name = "type_text" then some (fun i => type_text page i.1 i.2)
  else if name = "click_element" then some (fun i => click_element page i.1)
  else if name = "read_current_page_content" then
    some (fun _ => read_current_page_content page)
  else none

/-- A reference to the Playwright page stored in the module-level `page`
global (app.py line 39): which browser instance it belongs to and whether
that browser has been closed. -/
structure PageRef where
  id : Nat
  browserClosed : Bool
deriving DecidableEq

/-- Outcome of `agent_executor.invoke` (app.py line 195): it returns a result
dict whose output is a string, or raises. -/
inductive AgentOutcome where
  | output (answer : String)
  | exn (err : String)

/-- One call's environment for `execute_task` (app.py lines 176-207): the
task extracted from the request body (`none` when the key is absent),
the results of `p.chromium.launch` and of `context.new_context()` /
`context.new_page()` (either may raise), a fresh id for the launched browser,
and the outcome of the agent run. -/
structure ExecEnv where
  task : Option String
  launch : Except String Unit
  newPage : Except String Unit
  browserId : Nat
  agentResult : AgentOutcome

/-- The HTTP response produced by `execute_task`: `jsonify({"result": ...})`
with status 200, or `jsonify({"error": ...})` with an explicit status. -/
inductive HttpResponse where
  | ok (body : String)
  | err (status : Nat) (body : String)
deriving DecidableEq

/-- Observable effects of one `execute_task` call: the response, how many
times `p.chromium.launch` was attempted, how many times
`agent_executor.invoke` was called, how many times `browser.close()` ran in
the `finally` block, and the value of the `page` global afterwards. -/
structure ExecResult where
  response : HttpResponse
  launches : Nat
  invokes : Nat
  closeCalls : Nat
  pageAfter : Option PageRef
deriving DecidableEq

/-- Embeds `execute_task` (app.py lines 176-207) as a function of the call's
environment and the prior value of the `page` global.  `if not task` returns
400 before any browser work; inside `with sync_playwright()`, a launch
failure reaches the except-branch with `browser` unbound, so the finally
block closes nothing; once `launch` succeeded, `browser` is bound and still
connected, so `finally` runs `browser.close()` exactly once; `page` is
rebound to the new browser's page only after `new_page()` succeeds and is
never reset afterwards, so after the call it refers to a page of the
now-closed browser. -/
def executeTask (env : ExecEnv) (st : Option PageRef) : ExecResult :=
  match env.task with
  | none => ⟨.err 400 "No task provided", 0, 0, 0, st⟩
  | some t =>
    if t.isEmpty then ⟨.err 400 "No task provided", 0, 0, 0, st⟩
    else
      match env.launch with
      | .error e => ⟨.err 500 e, 1, 0, 0, st⟩
      | .ok _ =>
        match env.newPage with
        | .error e => ⟨.err 500 e, 1, 0, 1, st⟩
        | .ok _ =>
          match env.agentResult with
          | .output o => ⟨.ok o, 1, 1, 1, some ⟨env.browserId, true⟩⟩
          | .exn e => ⟨.err 500 e, 1, 1, 1, some ⟨env.browserId, true⟩⟩

/-- The `page` global after a sequence of `execute_task` calls. -/
def pageAfterRuns (envs : List ExecEnv) (st : Option PageRef) : Option PageRef :=
  envs.foldl (fun s env => (executeTask env s).pageAfter) st

/-- A spy page on which every browser operation succeeds. -/
def okPage : PageModel :=
  { goto := fun _ => .ok ()
    fill := fun _ _ => .ok ()
    press := fun _ => .ok ()
    click := fun _ => .ok ()
    waitForLoadState := fun _ => .ok ()
    innerText := fun _ => .ok "hello" }

/-- A spy page on which every browser operation raises `boom`. -/
def failPage : PageModel :=
  { goto := fun _ => .error "boom"
    fill := fun _ _ => .error "boom"
    press := fun _ => .error "boom"
    click := fun _ => .error "boom"
    waitForLoadState := fun _ => .error "boom"
    innerText := fun _ => .error "boom" }

/-- A spy page on which only `locator(...).fill` raises. -/
def fillFailPage : PageModel :=
  { okPage with fill := fun _ _ => .error "boom" }

/-- A spy page on which only `keyboard.press` raises. -/
def pressFailPage : PageModel :=
  { okPage with press := fun _ => .error "boom" }

/-- A spy page on which only `inner_text` raises. -/
def textFailPage : PageModel :=
  { okPage with innerText := fun _ => .error "boom" }

/-- An exception message of 4001 characters, as a long Playwright error with
its call log can produce. -/
def hugeError : String := String.mk (List.replicate 4001 'x')

/-- A spy page on which `inner_text` raises with a 4001-character message. -/
def errLenPage : PageModel :=
  { okPage with innerText := fun _ => .error hugeError }

/-- A visible body text of 10000 characters. -/
def tenKText : String := String.mk (List.replicate 10000 'a')

/-- A spy page whose visible body text has 10000 characters. -/
def tenKPage : PageModel :=
  { okPage with innerText := fun _ => .ok tenKText }

/-- A call environment in which everything succeeds. -/
def okEnv : ExecEnv :=
  { task := some "find the answer"
    launch := .ok ()
    newPage := .ok ()
    browserId := 7
    agentResult := .output "the answer" }

/-- A call environment whose request body has no task. -/
def noTaskEnv : ExecEnv :=
  { okEnv with task := none }

/-! Helper lemmas shared by the claim theorems. -/

theorem string_length_append (a b : String) : (a ++ b).length = a.length + b.length := by
  cases a with
  | mk da =>
    cases b with
    | mk db =>
      show (String.mk (da ++ db)).length = da.length + db.length
      simp [String.length]

theorem string_length_take (s : String) (n : Nat) :
    (s.take n).length = min n s.length := by
  rw [String.take_eq]
  cases s with
  | mk d => simp [String.length]

theorem appToolset_eq_none (page : Option PageModel) (name : String)
    (h : name ∉ toolNames) : appToolset page name = none := by
  simp only [toolNames, List.mem_cons, List.not_mem_nil, or_false, not_or] at h
  obtain ⟨h1, h2, h3, h4, h5⟩ := h
  simp [appToolset, h1, h2, h3, h4, h5]

theorem executeTask_pageAfter_cases (env : ExecEnv) (st : Option PageRef) :
    (executeTask env st).pageAfter = st ∨
    (executeTask env st).pageAfter = some ⟨env.browserId, true⟩ := by
  obtain ⟨task, launch, newPage, bid, ar⟩ := env
  cases task with
  | none => left; rfl
  | some t =>
    by_cases he : t.isEmpty <;>
      cases launch <;> cases newPage <;> cases ar <;> simp [executeTask, he]

/-! Claim theorems. -/

/-- C5: invoking any of the five tools while the page handle is unset does
not crash and returns the "Browser is not running." observation instead of
operating on a page. -/
theorem c5_session_guard (q url sel txt : String) :
    google_search none q = "Browser is not running." ∧
    navigate_to_url none url = "Browser is not running." ∧
    type_text none sel txt = "Browser is not running." ∧
    click_element none sel = "Browser is not running." ∧
    read_current_page_content none = "Browser is not running." :=
  ⟨rfl, rfl, rfl, rfl, rfl⟩

/-- C8: on success the search tool's observation contains the query it was
given, and the navigate tool's observation contains the URL it was given. -/
theorem c8_confirmation_names_input (p : PageModel) (q url : String) :
    (p.goto "https://www.google.com" = .ok () →
      p.fill "textarea[name=\"q\"]" q = .ok () → p.press "Enter" = .ok () →
      ∃ pre post, google_search (some p) q = pre ++ q ++ post) ∧
    (p.goto url = .ok () →
      ∃ pre post, navigate_to_url (some p) url = pre ++ url ++ post) := by
  constructor
  · intro h1 h2 h3
    refine ⟨"Successfully searched for '",
      "'. The results are now on the screen.", ?_⟩
    simp [google_search, h1, h2, h3]
  · intro h1
    refine ⟨"Successfully navigated to ", ".", ?_⟩
    simp [navigate_to_url, h1]

theorem c8_witness :
    (∃ pre post, google_search (some okPage) "cats" = pre ++ "cats" ++ post) ∧
    (∃ pre post,
      navigate_to_url (some okPage) "https://example.test" =
        pre ++ "https://example.test" ++ post) :=
  ⟨(c8_confirmation_names_input okPage "cats" "u").1 rfl rfl rfl,
   (c8_confirmation_names_input okPage "q" "https://example.test").2 rfl⟩

/-- C4: for every tool, a raising browser operation is caught inside the
tool and converted to a descriptive observation, and the loop treats a known
tool's observation as a normal step and continues rather than aborting. -/
theorem c4_tool_failures_recoverable (p : PageModel) (q url sel txt e : String) :
    (p.goto "https://www.google.com" = .error e →
      google_search (some p) q = "Error during Google search: " ++ e) ∧
    (p.goto "https://www.google.com" = .ok () →
      p.fill "textarea[name=\"q\"]" q = .error e →
      google_search (some p) q = "Error during Google search: " ++ e) ∧
    (p.goto "https://www.google.com" = .ok () →
      p.fill "textarea[name=\"q\"]" q = .ok () → p.press "Enter" = .error e →
      google_search (some p) q = "Error during Google search: " ++ e) ∧
    (p.goto url = .error e →
      navigate_to_url (some p) url = "Error navigating to url: " ++ e) ∧
    (p.fill sel txt = .error e →
      type_text (some p) sel txt = "Error typing text: " ++ e) ∧
    (p.click sel = .error e →
      click_element (some p) sel = "Error clicking element: " ++ e) ∧
    (p.waitForLoadState "networkidle" = .error e →
      read_current_page_content (some p) =
        "Could not get page content. Error: " ++ e) ∧
    (p.waitForLoadState "networkidle" = .ok () → p.innerText "body" = .error e →
      read_current_page_content (some p) =
        "Could not get page content. Error: " ++ e) ∧
    (∀ (σ : Type) (toolset : String → Option (σ → String)) (maxR : Nat)
        (name : String) (i : σ) (s : LoopState σ) (f : σ → String),
      toolset name = some f →
      loopStep toolset maxR (.decision (.act name i)) s =
        .next ⟨s.history ++ [⟨name, some i, f i⟩], 0⟩) := by
  refine ⟨?_, ?_, ?_, ?_, ?_, ?_, ?_, ?_, ?_⟩
  · intro h1; simp [google_search, h1]
  · intro h1 h2; simp [google_search, h1, h2]
  · intro h1 h2 h3; simp [google_search, h1, h2, h3]
  · intro h1; simp [navigate_to_url, h1]
  · intro h1; simp [type_text, h1]
  · intro h1; simp [click_element, h1]
  · intro h1; simp [read_current_page_content, h1]
  · intro h1 h2; simp [read_current_page_content, h1, h2]
  · intro σ toolset maxR name i s f hf; simp [loopStep, hf]

theorem c4_witness :
    google_search (some failPage) "w" = "Error during Google search: boom" ∧
    google_search (some fillFailPage) "w" = "Error during Google search: boom" ∧
    google_search (some pressFailPage) "w" = "Error during Google search: boom" ∧
    navigate_to_url (some failPage) "https://example.test" =
      "Error navigating to url: boom" ∧
    type_text (some failPage) "#a" "hi" = "Error typing text: boom" ∧
    click_element (some failPage) "#a" = "Error clicking element: boom" ∧
    read_current_page_content (some failPage) =
      "Could not get page content. Error: boom" ∧
    read_current_page_content (some textFailPage) =
      "Could not get page content. Error: boom" ∧
    loopStep (appToolset (some failPage)) 3
        (.decision (.act "click_element" ("#a", "")))
        (⟨[], 0⟩ : LoopState (String × String)) =
      .next ⟨[⟨"click_element", some ("#a", ""),
               click_element (some failPage) "#a"⟩], 0⟩ :=
  ⟨(c4_tool_failures_recoverable failPage "w" "u" "s" "t" "boom").1 rfl,
   (c4_tool_failures_recoverable fillFailPage "w" "u" "s" "t" "boom").2.1 rfl rfl,
   (c4_tool_failures_recoverable pressFailPage "w" "u" "s" "t" "boom").2.2.1 rfl rfl rfl,
   (c4_tool_failures_recoverable failPage "w" "https://example.test" "s" "t"
      "boom").2.2.2.1 rfl,
   (c4_tool_failures_recoverable failPage "w" "u" "#a" "hi" "boom").2.2.2.2.1 rfl,
   (c4_tool_failures_recoverable failPage "w" "u" "#a" "t" "boom").2.2.2.2.2.1 rfl,
   (c4_tool_failures_recoverable failPage "w" "u" "s" "t" "boom").2.2.2.2.2.2.1 rfl,
   (c4_tool_failures_recoverable textFailPage "w" "u" "s" "t"
      "boom").2.2.2.2.2.2.2.1 rfl rfl,
   (c4_tool_failures_recoverable failPage "w" "u" "s" "t" "boom").2.2.2.2.2.2.2.2
     (String × String) (appToolset (some failPage)) 3 "click_element" ("#a", "")
     ⟨[], 0⟩ (fun i => click_element (some failPage) i.1) rfl⟩

/-- C3 counterexample: on a page whose `inner_text` raises with a
4001-character message, the observation of `read_current_page_content` is the
error text prefixed by a descriptive header and has length 4036 > 4000, so
the bound does not hold for every page state. -/
theorem c3_counterexample :
    ¬ (read_current_page_content (some errLenPage)).length ≤ 4000 := by
  have h : read_current_page_content (some errLenPage) =
      "Could not get page content. Error: " ++ hugeError := rfl
  have hpre : ("Could not get page content. Error: " : String).length = 35 := rfl
  have hhuge : hugeError.length = 4001 := by
    show (List.replicate 4001 'x').length = 4001
    exact List.length_replicate 4001 'x'
  rw [h, string_length_append, hpre, hhuge]
  omega

/-- C3 (amended): whenever the page's visible body text is read successfully,
the observation of `read_current_page_content` is the text truncated to 4000
characters, so its length is `min 4000 (length of the text)`, in particular
at most 4000, and exactly 4000 once the text has at least 4000 characters
(e.g. 10000); failure observations are descriptive error text and are not
subject to the bound. -/
theorem c3_truncation (p : PageModel) (text : String)
    (hw : p.waitForLoadState "networkidle" = .ok ())
    (hi : p.innerText "body" = .ok text) :
    (read_current_page_content (some p)).length = min 4000 text.length ∧
    (read_current_page_content (some p)).length ≤ 4000 ∧
    (text.length = 10000 → (read_current_page_content (some p)).length = 4000) := by
  have h : read_current_page_content (some p) = text.take 4000 := by
    simp [read_current_page_content, hw, hi]
  rw [h, string_length_take]
  exact ⟨rfl, Nat.min_le_left _ _, fun h10 => by rw [h10]; omega⟩

theorem c3_truncation_witness :
    (read_current_page_content (some tenKPage)).length = min 4000 tenKText.length ∧
    (read_current_page_content (some tenKPage)).length ≤ 4000 ∧
    (tenKText.length = 10000 →
      (read_current_page_content (some tenKPage)).length = 4000) :=
  c3_truncation tenKPage tenKText rfl rfl

/-- C7: a parsed `Act` decision whose action name is not in the fixed tool
set does not fail the run and throws nothing: the loop step continues with a
synthesized observation, and that observation names the invalid action. -/
theorem c7_unknown_action (page : Option PageModel) (maxR : Nat)
    (name : String) (i : String × String) (s : LoopState (String × String))
    (h : name ∉ toolNames) :
    loopStep (appToolset page) maxR (.decision (.act name i)) s =
      .next ⟨s.history ++ [⟨name, some i, invalidActionObservation name⟩], 0⟩ ∧
    ∃ pre post, invalidActionObservation name = pre ++ name ++ post := by
  constructor
  · simp [loopStep, appToolset_eq_none page name h]
  · exact ⟨"Invalid action: '",
      "' is not a known tool. Choose one of the listed tool names.", rfl⟩

theorem c7_witness :
    loopStep (appToolset none) 3 (.decision (.act "fly_to_moon" ("x", "")))
        (⟨[], 0⟩ : LoopState (String × String)) =
      .next ⟨[⟨"fly_to_moon", some ("x", ""),
               invalidActionObservation "fly_to_moon"⟩], 0⟩ ∧
    ∃ pre post, invalidActionObservation "fly_to_moon" =
      pre ++ "fly_to_moon" ++ post :=
  c7_unknown_action none 3 "fly_to_moon" ("x", "") ⟨[], 0⟩ (by decide)

/-- C6: a `ParseFailure` never crashes the loop: below the retry bound the
step continues, appending the corrective observation that states the required
response shape and counting the consecutive failure; at the bound the step
reaches `Failed(unparseable-output)`; and an oracle that always parse-fails
drives any sufficiently fueled run into `Failed(unparseable-output)`. -/
theorem c6_parse_failure_handling :
    (∀ (σ : Type) (toolset : String → Option (σ → String)) (maxR : Nat)
        (r : String) (s : LoopState σ), s.parseRetries < maxR →
      loopStep toolset maxR (.parseFailure r) s =
        .next ⟨s.history ++ [⟨"_parse_failure", none, parseCorrection⟩],
               s.parseRetries + 1⟩) ∧
    (∀ (σ : Type) (toolset : String → Option (σ → String)) (maxR : Nat)
        (r : String) (s : LoopState σ), maxR ≤ s.parseRetries →
      loopStep toolset maxR (.parseFailure r) s = .failed "unparseable-output") ∧
    (∀ (σ : Type) (oracle : LoopState σ → ParsedOutput σ)
        (toolset : String → Option (σ → String)) (maxR : Nat),
      (∀ s, ∃ r, oracle s = .parseFailure r) →
      ∀ (fuel : Nat) (s : LoopState σ), maxR - s.parseRetries < fuel →
      runLoop oracle toolset maxR fuel s = .failed "unparseable-output") := by
  refine ⟨?_, ?_, ?_⟩
  · intro σ toolset maxR r s hs
    simp [loopStep, Nat.not_le.mpr hs]
  · intro σ toolset maxR r s hs
    simp [loopStep, hs]
  · intro σ oracle toolset maxR h fuel
    induction fuel with
    | zero => intro s hs; omega
    | succ n ih =>
      intro s hs
      obtain ⟨r, hr⟩ := h s
      by_cases hle : maxR ≤ s.parseRetries
      · simp [runLoop, hr, loopStep, hle]
      · simp only [runLoop, hr, loopStep, if_neg hle]
        apply ih
        simp only [LoopState.parseRetries]
        omega

theorem c6_witness :
    loopStep (appToolset none) 3 (.parseFailure "bad")
        (⟨[], 0⟩ : LoopState (String × String)) =
      .next ⟨[⟨"_parse_failure", none, parseCorrection⟩], 1⟩ ∧
    loopStep (appToolset none) 3 (.parseFailure "bad")
        (⟨[], 3⟩ : LoopState (String × String)) =
      .failed "unparseable-output" ∧
    runLoop (fun _ => .parseFailure "bad") (appToolset none) 2 5
        (⟨[], 0⟩ : LoopState (String × String)) =
      .failed "unparseable-output" :=
  ⟨c6_parse_failure_handling.1 (String × String) (appToolset none) 3 "bad"
      ⟨[], 0⟩ (by decide),
   c6_parse_failure_handling.2.1 (String × String) (appToolset none) 3 "bad"
      ⟨[], 3⟩ (by decide),
   c6_parse_failure_handling.2.2 (String × String) (fun _ => .parseFailure "bad")
      (appToolset none) 2 (fun _ => ⟨"bad", rfl⟩) 5 ⟨[], 0⟩ (by decide)⟩

/-- C1: with an oracle that never produces a `Finish` decision (every query
parses to an `Act`), the bounded loop still terminates, within the maximum
iteration count of fuel, in the terminal state
`Failed(iteration-limit-exceeded)`, which the task runner surfaces to the
caller as an error result. -/
theorem c1_iteration_bound {σ : Type} (oracle : LoopState σ → ParsedOutput σ)
    (toolset : String → Option (σ → String)) (maxParseRetries maxIterations : Nat)
    (s : LoopState σ)
    (h : ∀ s2, ∃ name i, oracle s2 = .decision (.act name i)) :
    runLoop oracle toolset maxParseRetries maxIterations s =
      .failed "iteration-limit-exceeded" ∧
    loopResultToResponse
        (runLoop oracle toolset maxParseRetries maxIterations s) =
      .error "Agent failed: iteration-limit-exceeded" := by
  have main : ∀ (n : Nat) (s2 : LoopState σ),
      runLoop oracle toolset maxParseRetries n s2 =
        .failed "iteration-limit-exceeded" := by
    intro n
    induction n with
    | zero => intro s2; rfl
    | succ m ih =>
      intro s2
      obtain ⟨name, i, ho⟩ := h s2
      cases htool : toolset name with
      | none =>
        simp only [runLoop, ho, loopStep, htool]
        exact ih _
      | some f =>
        simp only [runLoop, ho, loopStep, htool]
        exact ih _
  exact ⟨main maxIterations s, by rw [main maxIterations s]; rfl⟩

theorem c1_iteration_bound_witness :
    runLoop (fun _ => .decision (.act "google_search" ("q", "")))
        (appToolset none) 3 5 (⟨[], 0⟩ : LoopState (String × String)) =
      .failed "iteration-limit-exceeded" ∧
    loopResultToResponse
        (runLoop (fun _ => .decision (.act "google_search" ("q", "")))
          (appToolset none) 3 5 (⟨[], 0⟩ : LoopState (String × String))) =
      .error "Agent failed: iteration-limit-exceeded" :=
  c1_iteration_bound (fun _ => .decision (.act "google_search" ("q", "")))
    (appToolset none) 3 5 ⟨[], 0⟩ (fun _ => ⟨"google_search", ("q", ""), rfl⟩)

/-- C2: once `p.chromium.launch` has succeeded for a genuine task, the
finally block of `execute_task` runs `browser.close()` exactly once on every
exit path — agent returned, agent raised, or setup raised after the launch —
and, whenever the new page was installed, the `page` global afterwards refers
to a page whose browser has been closed. -/
theorem c2_close_exactly_once (env : ExecEnv) (st : Option PageRef) (t : String)
    (htask : env.task = some t) (hne : t.isEmpty = false)
    (hlaunch : env.launch = .ok ()) :
    (executeTask env st).closeCalls = 1 ∧
    (env.newPage = .ok () →
      (executeTask env st).pageAfter = some ⟨env.browserId, true⟩) := by
  cases hnp : env.newPage with
  | error e =>
    refine ⟨?_, ?_⟩
    · simp [executeTask, htask, hne, hlaunch, hnp]
    · intro hc; simp at hc
  | ok u =>
    cases u
    cases har : env.agentResult <;>
      simp [executeTask, htask, hne, hlaunch, hnp, har]

theorem c2_close_exactly_once_witness :
    (executeTask okEnv none).closeCalls = 1 ∧
    (okEnv.newPage = .ok () →
      (executeTask okEnv none).pageAfter = some ⟨okEnv.browserId, true⟩) :=
  c2_close_exactly_once okEnv none "find the answer" rfl rfl rfl

/-- C9: a request with no task string, or an empty task string, yields the
400 "No task provided" error before any session setup: no launch attempt, no
agent invocation, no close, and the `page` global unchanged. -/
theorem c9_missing_task (env : ExecEnv) (st : Option PageRef)
    (h : env.task = none ∨ env.task = some "") :
    executeTask env st = ⟨.err 400 "No task provided", 0, 0, 0, st⟩ := by
  rcases h with h | h <;> simp [executeTask, h, String.isEmpty]

theorem c9_missing_task_witness :
    executeTask noTaskEnv (some ⟨3, true⟩) =
      ⟨.err 400 "No task provided", 0, 0, 0, some ⟨3, true⟩⟩ :=
  c9_missing_task noTaskEnv (some ⟨3, true⟩) (Or.inl rfl)

/-- C10: the `page` global is never reset by `execute_task` — once set it
stays set across any sequence of later calls; every value it ever receives is
a page of a browser that is closed by the time the call returns; a task that
launches and installs its page leaves the global pointing at the
closed-browser page; and the tools' guard observation fires exactly on the
unset handle, hence only before the first task ever sets it. -/
theorem c10_stale_page_handle :
    (∀ (env : ExecEnv) (st : Option PageRef), st ≠ none →
      (executeTask env st).pageAfter ≠ none) ∧
    (∀ (envs : List ExecEnv) (st : Option PageRef), st ≠ none →
      pageAfterRuns envs st ≠ none) ∧
    (∀ (env : ExecEnv) (st : Option PageRef) (r : PageRef),
      (executeTask env st).pageAfter = some r →
      st = some r ∨ r.browserClosed = true) ∧
    (∀ (env : ExecEnv) (st : Option PageRef) (t : String),
      env.task = some t → t.isEmpty = false → env.launch = .ok () →
      env.newPage = .ok () →
      (executeTask env st).pageAfter = some ⟨env.browserId, true⟩) ∧
    (∀ q, google_search none q = "Browser is not running.") := by
  have h1 : ∀ (env : ExecEnv) (st : Option PageRef), st ≠ none →
      (executeTask env st).pageAfter ≠ none := by
    intro env st hst
    rcases executeTask_pageAfter_cases env st with h | h <;> rw [h]
    · exact hst
    · simp
  refine ⟨h1, ?_, ?_, ?_, ?_⟩
  · intro envs
    induction envs with
    | nil => intro st hst; exact hst
    | cons env rest ih =>
      intro st hst
      simp only [pageAfterRuns, List.foldl_cons]
      exact ih _ (h1 env st hst)
  · intro env st r hr
    rcases executeTask_pageAfter_cases env st with h | h
    · left; rw [← h, hr]
    · right
      rw [hr] at h
      cases h
      rfl
  · intro env st t htask hne hlaunch hnp
    cases har : env.agentResult <;>
      simp [executeTask, htask, hne, hlaunch, hnp, har]
  · intro q; rfl

theorem c10_stale_page_handle_witness :
    (executeTask okEnv (some ⟨0, true⟩)).pageAfter ≠ none ∧
    pageAfterRuns [okEnv, okEnv] (some ⟨0, true⟩) ≠ none ∧
    ((some ⟨0, false⟩ : Option PageRef) = some ⟨7, true⟩ ∨
      (⟨7, true⟩ : PageRef).browserClosed = true) ∧
    (executeTask okEnv none).pageAfter = some ⟨7, true⟩ ∧
    google_search none "anything" = "Browser is not running." :=
  ⟨c10_stale_page_handle.1 okEnv (some ⟨0, true⟩) (by simp),
   c10_stale_page_handle.2.1 [okEnv, okEnv] (some ⟨0, true⟩) (by simp),
   c10_stale_page_handle.2.2.1 okEnv (some ⟨0, false⟩) ⟨7, true⟩ rfl,
   c10_stale_page_handle.2.2.2.1 okEnv none "find the answer" rfl rfl rfl rfl,
   c10_stale_page_handle.2.2.2.2 "anything"⟩

end BrowserAgent
